import Mathlib

/-!
Verification of the news-fetch + sentiment-scoring pipeline of the
AI-News-Dashboard repository. The definitions below are a shallow
embedding of `src/utils.py` and `src/config.py`: pure classification
logic is translated directly; the outcome of the single HTTP request
is passed in explicitly as a value of `HttpOutcome`, and the outcome
of the third-party polarity analyzer is passed in as an `Except`.
-/

namespace NewsDash

/-- One article object from the `articles` array of the API response
(`title`, `description`, `url`, `urlToImage`, `publishedAt`,
`source.name`, each possibly absent). -/
structure Article where
  title : Option String
  description : Option String
  url : Option String
  urlToImage : Option String
  publishedAt : Option String
  sourceName : Option String
deriving Repr, DecidableEq, BEq

/-- The JSON body of an HTTP 200 response, as read by `fetch_news` via
`data.get("status")`, `data.get("articles", [])`, `data.get("code")`,
`data.get("message")`. -/
structure ApiBody where
  status : Option String
  articles : Option (List Article)
  code : Option String
  message : Option String
deriving Repr, DecidableEq, BEq

/-- Outcome of `requests.get(NEWSAPI_BASE_URL, params=params, timeout=15)`
followed by the body-decoding attempt, covering every branch the source
distinguishes: an HTTP response with a status code, a reason and a body
that either decodes as JSON or not, and each caught exception class. -/
inductive HttpOutcome where
  | response (statusCode : Nat) (reason : String) (body : Except Unit ApiBody)
  | timeout
  | connectionError
  | requestException (detail : String)
  | otherException (detail : String)
deriving Repr

/-- The messages `fetch_news` appends, one constructor per `append` site
in the source, carrying the data interpolated into the message. -/
inductive Msg where
  | missingKey
  | zeroResults (topic language : String)
  | apiError (code message : Option String)
  | jsonDecodeError
  | badRequest400
  | unauthorized401
  | tooManyRequests429
  | serverError (statusCode : Nat)
  | otherHttp (statusCode : Nat) (reason : String)
  | timeoutMsg
  | connectionErrorMsg
  | requestExceptionMsg (detail : String)
  | unexpectedMsg (detail : String)
deriving Repr, DecidableEq, BEq

/-- The marker character the source puts at the front of each message
string: the zero-results message starts with the informational mark
and every other message starts with the error mark. -/
def Msg.mark : Msg → String
  | .zeroResults _ _ => "ℹ️"
  | _ => "❌"

/-- A message is informational exactly when it carries the
informational mark rather than the error mark. -/
def Msg.isInformational (m : Msg) : Bool := m.mark == "ℹ️"

/-- The parameter tuple of a `fetch_news` call:
(topic, language, page_size, sort_by). -/
structure FetchParams where
  topic : String
  language : String
  pageSize : Int
  sortBy : String
deriving Repr, DecidableEq, BEq

/-- The query parameters of the outbound request built at lines 40-46 of
`src/utils.py`; `pageSize` is `min(page_size, 100)`. -/
structure QueryParams where
  q : String
  apiKey : String
  pageSize : Int
  sortBy : String
  language : String
deriving Repr, DecidableEq, BEq

/-- Truthiness of `NEWSAPI_KEY` (`os.getenv` yields `None` or a string;
`if not NEWSAPI_KEY` is taken for `None` and for the empty string). -/
def keyConfigured : Option String → Bool
  | none => false
  | some s => !s.isEmpty

/-- The `params` dict sent upstream, or `none` when the missing-key
early return fires and no request is issued. -/
def sentRequest (apiKey : Option String) (p : FetchParams) : Option QueryParams :=
  match apiKey with
  | none => none
  | some k =>
      if k.isEmpty then none
      else some { q := p.topic, apiKey := k, pageSize := min p.pageSize 100,
                  sortBy := p.sortBy, language := p.language }

/-- Classification of the request outcome, lines 50-88 of `src/utils.py`:
the `if response.status_code == 200` ladder, the JSON decode guard, the
API status flag, the zero-results branch, and the exception handlers. -/
def classifyOutcome (p : FetchParams) : HttpOutcome → List Article × List Msg
  | .response statusCode reason body =>
      if statusCode == 200 then
        match body with
        | .error _ => ([], [Msg.jsonDecodeError])
        | .ok data =>
            if data.status == some "ok" then
              let articles := data.articles.getD []
              if articles.isEmpty then
                ([], [Msg.zeroResults p.topic p.language])
              else
                (articles, [])
            else
              ([], [Msg.apiError data.code data.message])
      else if statusCode == 400 then ([], [Msg.badRequest400])
      else if statusCode == 401 then ([], [Msg.unauthorized401])
      else if statusCode == 429 then ([], [Msg.tooManyRequests429])
      else if 500 ≤ statusCode then ([], [Msg.serverError statusCode])
      else ([], [Msg.otherHttp statusCode reason])
  | .timeout => ([], [Msg.timeoutMsg])
  | .connectionError => ([], [Msg.connectionErrorMsg])
  | .requestException detail => ([], [Msg.requestExceptionMsg detail])
  | .otherException detail => ([], [Msg.unexpectedMsg detail])

/-- `fetch_news(topic, language, page_size, sort_by)`: the missing-key
early return, else the classified outcome of the single request. -/
def fetch_news (apiKey : Option String) (p : FetchParams)
    (outcome : HttpOutcome) : List Article × List Msg :=
  if !(keyConfigured apiKey) then
    ([], [Msg.missingKey])
  else
    classifyOutcome p outcome

/-! ### Time-bounded memoization of fetch_news

The source applies a third-party cache decorator with a 1800-second
time-to-live to `fetch_news` (line 31 of `src/utils.py`). The decorator
body lives outside this repository, so the cache is modelled below. -/

/-- Time-to-live of the fetch cache in seconds (30 minutes),
from the decorator argument on line 31 of `src/utils.py`. -/
def cacheTTL : Nat := 1800

/-- Modelled from the spec: one memoized entry of the cache decorated
onto `fetch_news`, a mapping entry from the exact parameter tuple to
the stored result tagged with its store time (seconds). -/
structure CacheEntry where
  key : FetchParams
  result : List Article × List Msg
  storedAt : Nat
deriving Repr, DecidableEq, BEq

/-- Modelled from the spec: read the cache at time `now`; an entry is
valid while its age is below the 1800-second time-to-live. -/
def cacheLookup (entries : List CacheEntry) (k : FetchParams) (now : Nat) :
    Option (List Article × List Msg) :=
  match entries.find? (fun e => decide (e.key = k)) with
  | some e => if now - e.storedAt < cacheTTL then some e.result else none
  | none => none

/-- Modelled from the spec: `fetch_news` behind the time-bounded cache.
A cache hit returns the stored result and issues no request; a miss
runs `fetch_news`, stores its result, and the request is issued exactly
when the missing-key early return does not fire. The third component
reports whether an outbound request was issued. -/
def cachedFetchNews (entries : List CacheEntry) (now : Nat)
    (apiKey : Option String) (p : FetchParams) (outcome : HttpOutcome) :
    (List Article × List Msg) × List CacheEntry × Bool :=
  match cacheLookup entries p now with
  | some r => (r, entries, false)
  | none =>
      let r := fetch_news apiKey p outcome
      (r, { key := p, result := r, storedAt := now } :: entries,
       (sentRequest apiKey p).isSome)

/-! ### Sentiment scorer -/

/-- `SENTIMENT_THRESHOLD_POSITIVE` from `src/config.py`. -/
def SENTIMENT_THRESHOLD_POSITIVE : ℚ := 5 / 100

/-- `SENTIMENT_THRESHOLD_NEGATIVE` from `src/config.py`. -/
def SENTIMENT_THRESHOLD_NEGATIVE : ℚ := -(5 / 100)

/-- A Python value passed as `text`: either a string or a value of some
other type (for the `isinstance(text, str)` guard). -/
inductive PyText where
  | str (s : String)
  | nonStr
deriving Repr, DecidableEq

/-- ASCII whitespace as treated by the `str.strip()` call. -/
def isPyWhitespace (c : Char) : Bool :=
  c == ' ' || c == '\t' || c == '\n' || c == '\r' || c == '\x0b' || c == '\x0c'

/-- `text.strip()`: leading and trailing whitespace removed. -/
def pyStrip (s : String) : String :=
  String.mk ((((s.toList.dropWhile isPyWhitespace).reverse.dropWhile
    isPyWhitespace).reverse))

/-- Result of `analyze_sentiment_vader`, together with whether the
analyzer was invoked and whether the warning channel was used. -/
structure SentimentOutput where
  label : String
  score : ℚ
  analyzerInvoked : Bool
  warningEmitted : Bool
deriving Repr, DecidableEq

/-- `analyze_sentiment_vader(text)`: the input guard, then the analyzer
call whose outcome (a compound score, or a raised exception with its
message) is passed in as `analyzer`, then the threshold ladder. -/
def analyze_sentiment_vader (text : PyText) (analyzer : Except String ℚ) :
    SentimentOutput :=
  match text with
  | .nonStr => { label := "Nötr", score := 0, analyzerInvoked := false,
                 warningEmitted := false }
  | .str s =>
      if (pyStrip s).isEmpty then
        { label := "Nötr", score := 0, analyzerInvoked := false,
          warningEmitted := false }
      else
        match analyzer with
        | .error _ =>
            { label := "Nötr", score := 0, analyzerInvoked := true,
              warningEmitted := true }
        | .ok compound_score =>
            if SENTIMENT_THRESHOLD_POSITIVE ≤ compound_score then
              { label := "Olumlu", score := compound_score,
                analyzerInvoked := true, warningEmitted := false }
            else if compound_score ≤ SENTIMENT_THRESHOLD_NEGATIVE then
              { label := "Olumsuz", score := compound_score,
                analyzerInvoked := true, warningEmitted := false }
            else
              { label := "Nötr", score := compound_score,
                analyzerInvoked := true, warningEmitted := false }

/-! ### Timestamp formatter -/

/-- `date_string.split('T')[0]`: the part of the string before the
first `T`, the whole string when no `T` occurs. -/
def splitT (s : String) : String :=
  String.mk (s.toList.takeWhile (fun c => c != 'T'))

/-- `format_datetime(date_string)`. The input may be absent (`None`);
`if not date_string` is taken for `None` and the empty string. The
third-party ISO parse and the rendering of a parsed datetime are passed
in as `parsed`: `some rendered` when `parser.isoparse` succeeds and the
datetime renders as `rendered`, `none` when the parse raises. -/
def format_datetime (date_string : Option String) (parsed : Option String) :
    String :=
  match date_string with
  | none => "Tarih Yok"
  | some s =>
      if s.isEmpty then "Tarih Yok"
      else
        match parsed with
        | some rendered => rendered
        | none => splitT s

/-! ### Theorems -/

/-- C2: for every call of fetch_news (any topic, language, page_size,
sort_by, and any outcome of the HTTP request), the returned pair never
has the article sequence and the error sequence simultaneously
non-empty. -/
theorem fetch_news_never_both_nonempty (apiKey : Option String)
    (p : FetchParams) (outcome : HttpOutcome) :
    (fetch_news apiKey p outcome).1 = [] ∨
      (fetch_news apiKey p outcome).2 = [] := by
  unfold fetch_news
  split
  · exact Or.inl rfl
  · unfold classifyOutcome
    cases outcome with
    | response statusCode reason body =>
        dsimp only
        split
        · cases body with
          | error e => exact Or.inl rfl
          | ok data =>
              dsimp only
              split
              · split
                · exact Or.inl rfl
                · exact Or.inr rfl
              · exact Or.inl rfl
        · split
          · exact Or.inl rfl
          · split
            · exact Or.inl rfl
            · split
              · exact Or.inl rfl
              · split
                · exact Or.inl rfl
                · exact Or.inl rfl
    | timeout => exact Or.inl rfl
    | connectionError => exact Or.inl rfl
    | requestException detail => exact Or.inl rfl
    | otherException detail => exact Or.inl rfl

/-- C5: with no API credential configured, fetch_news returns empty
articles and exactly the single configuration-error message, and no
outbound request is built. -/
theorem fetch_news_missing_key (apiKey : Option String) (p : FetchParams)
    (outcome : HttpOutcome) (h : keyConfigured apiKey = false) :
    fetch_news apiKey p outcome = ([], [Msg.missingKey]) ∧
      sentRequest apiKey p = none := by
  constructor
  · unfold fetch_news
    rw [h]
    rfl
  · cases apiKey with
    | none => rfl
    | some k =>
        unfold sentRequest
        unfold keyConfigured at h
        simp only [Bool.not_eq_false'] at h
        simp [h]

/-- Witness for C5 at a concrete input. -/
theorem fetch_news_missing_key_witness :
    keyConfigured none = false ∧
      (fetch_news none ⟨"ai", "en", 10, "relevancy"⟩ HttpOutcome.timeout
          = ([], [Msg.missingKey]) ∧
        sentRequest none ⟨"ai", "en", 10, "relevancy"⟩ = none) :=
  ⟨by decide,
   fetch_news_missing_key none ⟨"ai", "en", 10, "relevancy"⟩
     HttpOutcome.timeout (by decide)⟩

/-- C7: a requested page_size above 100 is clamped: the pageSize sent
upstream equals 100. -/
theorem fetch_news_clamps_large_page_size (apiKey : Option String)
    (p : FetchParams) (hkey : keyConfigured apiKey = true)
    (h : 100 < p.pageSize) :
    (sentRequest apiKey p).map QueryParams.pageSize = some 100 := by
  cases apiKey with
  | none => simp [keyConfigured] at hkey
  | some k =>
      unfold keyConfigured at hkey
      simp only [Bool.not_eq_true'] at hkey
      unfold sentRequest
      simp only [hkey, Bool.false_eq_true, if_false, Option.map_some']
      have : min p.pageSize 100 = 100 := min_eq_right (le_of_lt h)
      simp [this]

/-- Witness for C7: page_size 500 is sent as 100. -/
theorem fetch_news_clamps_large_page_size_witness :
    (100 : Int) < 500 ∧
      (sentRequest (some "k") ⟨"ai", "en", 500, "relevancy"⟩).map
          QueryParams.pageSize = some 100 :=
  ⟨by decide,
   fetch_news_clamps_large_page_size (some "k")
     ⟨"ai", "en", 500, "relevancy"⟩ (by decide) (by decide)⟩

/-- C10: the clamp is one-sided: any requested page_size at most 100,
zero and negative values included, is sent upstream unchanged. -/
theorem fetch_news_clamp_one_sided (apiKey : Option String)
    (p : FetchParams) (hkey : keyConfigured apiKey = true)
    (h : p.pageSize ≤ 100) :
    (sentRequest apiKey p).map QueryParams.pageSize = some p.pageSize := by
  cases apiKey with
  | none => simp [keyConfigured] at hkey
  | some k =>
      unfold keyConfigured at hkey
      simp only [Bool.not_eq_true'] at hkey
      unfold sentRequest
      simp only [hkey, Bool.false_eq_true, if_false, Option.map_some']
      have : min p.pageSize 100 = p.pageSize := min_eq_left h
      simp [this]

/-- Witness for C10: page_size 0 and page_size -7 pass through
unchanged. -/
theorem fetch_news_clamp_one_sided_witness :
    ((sentRequest (some "k") ⟨"ai", "en", 0, "relevancy"⟩).map
        QueryParams.pageSize = some 0) ∧
      ((sentRequest (some "k") ⟨"ai", "en", -7, "relevancy"⟩).map
          QueryParams.pageSize = some (-7)) :=
  ⟨fetch_news_clamp_one_sided (some "k") ⟨"ai", "en", 0, "relevancy"⟩
     (by decide) (by decide),
   fetch_news_clamp_one_sided (some "k") ⟨"ai", "en", -7, "relevancy"⟩
     (by decide) (by decide)⟩

/-- An HTTP 200 body with status ok and an empty articles array. -/
def zeroResultsBody : ApiBody :=
  { status := some "ok", articles := some [], code := none, message := none }

/-- C1 counterexample: on HTTP 200, status ok, zero articles, the error
sequence returned by fetch_news is NOT empty — the informational
zero-results message is appended to the same errors list. -/
theorem fetch_news_zero_results_counterexample :
    ¬ ((fetch_news (some "k") ⟨"ai", "en", 10, "relevancy"⟩
        (HttpOutcome.response 200 "OK" (Except.ok zeroResultsBody))).2
      = []) := by decide

/-- C1 amended: on HTTP 200, status ok, zero articles, fetch_news
returns empty articles and a message sequence holding exactly one
message, the zero-results message; that message is informational, and
informational messages are exactly the zero-results ones, so the
condition is distinguishable downstream from every error message. -/
theorem fetch_news_zero_results_informational (apiKey : Option String)
    (p : FetchParams) (reason : String) (body : ApiBody)
    (hkey : keyConfigured apiKey = true)
    (hstatus : body.status = some "ok")
    (harticles : body.articles.getD [] = []) :
    fetch_news apiKey p (HttpOutcome.response 200 reason (Except.ok body))
        = ([], [Msg.zeroResults p.topic p.language]) ∧
      (Msg.zeroResults p.topic p.language).isInformational = true ∧
      ∀ m : Msg, m.isInformational = true →
        ∃ t l, m = Msg.zeroResults t l := by
  refine ⟨?_, rfl, ?_⟩
  · unfold fetch_news
    rw [hkey]
    unfold classifyOutcome
    simp [hstatus, harticles]
  · intro m hm
    cases m <;> simp_all [Msg.isInformational, Msg.mark]

/-- Witness for the amended C1 at a concrete input. -/
theorem fetch_news_zero_results_informational_witness :
    fetch_news (some "k") ⟨"ai", "en", 10, "relevancy"⟩
        (HttpOutcome.response 200 "OK" (Except.ok zeroResultsBody))
        = ([], [Msg.zeroResults "ai" "en"]) ∧
      (Msg.zeroResults "ai" "en").isInformational = true ∧
      ∀ m : Msg, m.isInformational = true →
        ∃ t l, m = Msg.zeroResults t l :=
  fetch_news_zero_results_informational (some "k")
    ⟨"ai", "en", 10, "relevancy"⟩ "OK" zeroResultsBody
    (by decide) rfl rfl

/-- C4: two cachedFetchNews calls with the identical parameter tuple,
the second within 1800 seconds of the first call having stored its
result, yield the identical result on the second call, with no cache
mutation and no outbound request issued. -/
theorem cached_fetch_news_memoizes (entries : List CacheEntry)
    (t1 t2 : Nat) (apiKey apiKey2 : Option String) (p : FetchParams)
    (outcome outcome2 : HttpOutcome)
    (hmiss : cacheLookup entries p t1 = none)
    (hwin : t2 - t1 < cacheTTL) :
    cachedFetchNews ((cachedFetchNews entries t1 apiKey p outcome).2.1)
        t2 apiKey2 p outcome2
      = ((cachedFetchNews entries t1 apiKey p outcome).1,
         (cachedFetchNews entries t1 apiKey p outcome).2.1, false) := by
  have hfirst : cachedFetchNews entries t1 apiKey p outcome
      = (fetch_news apiKey p outcome,
         { key := p, result := fetch_news apiKey p outcome,
           storedAt := t1 } :: entries,
         (sentRequest apiKey p).isSome) := by
    unfold cachedFetchNews
    rw [hmiss]
  have hhit : cacheLookup
      ({ key := p, result := fetch_news apiKey p outcome,
         storedAt := t1 } :: entries) p t2
      = some (fetch_news apiKey p outcome) := by
    unfold cacheLookup
    simp [List.find?, hwin]
  rw [hfirst]
  unfold cachedFetchNews
  rw [hhit]

/-- Witness for C4: a first call at time 0 on an empty cache and a
second call 100 seconds later with the same tuple. -/
theorem cached_fetch_news_memoizes_witness :
    cacheLookup [] ⟨"ai", "en", 10, "relevancy"⟩ 0 = none ∧
      (100 : Nat) - 0 < cacheTTL ∧
      cachedFetchNews
          ((cachedFetchNews [] 0 (some "k") ⟨"ai", "en", 10, "relevancy"⟩
            HttpOutcome.timeout).2.1)
          100 (some "k") ⟨"ai", "en", 10, "relevancy"⟩
          HttpOutcome.connectionError
        = ((cachedFetchNews [] 0 (some "k") ⟨"ai", "en", 10, "relevancy"⟩
              HttpOutcome.timeout).1,
           (cachedFetchNews [] 0 (some "k") ⟨"ai", "en", 10, "relevancy"⟩
              HttpOutcome.timeout).2.1, false) :=
  ⟨rfl, by decide,
   cached_fetch_news_memoizes [] 0 100 (some "k") (some "k")
     ⟨"ai", "en", 10, "relevancy"⟩ HttpOutcome.timeout
     HttpOutcome.connectionError rfl (by decide)⟩

/-- C3: on non-blank text, the label is the threshold ladder applied to
the compound score with inclusive boundaries, and the returned score is
the compound score itself. -/
theorem analyze_sentiment_vader_boundaries (s : String) (c : ℚ)
    (h : (pyStrip s).isEmpty = false) :
    (analyze_sentiment_vader (PyText.str s) (Except.ok c)).score = c ∧
      (c = 5 / 100 →
        (analyze_sentiment_vader (PyText.str s) (Except.ok c)).label
          = "Olumlu") ∧
      (c = -(5 / 100) →
        (analyze_sentiment_vader (PyText.str s) (Except.ok c)).label
          = "Olumsuz") ∧
      (-(5 / 100) < c → c < 5 / 100 →
        (analyze_sentiment_vader (PyText.str s) (Except.ok c)).label
          = "Nötr") := by
  unfold analyze_sentiment_vader SENTIMENT_THRESHOLD_POSITIVE
    SENTIMENT_THRESHOLD_NEGATIVE
  simp only [h, Bool.false_eq_true, if_false]
  refine ⟨?_, ?_, ?_, ?_⟩
  · dsimp only
    split_ifs <;> rfl
  · intro hc
    subst hc
    rw [if_pos (by norm_num)]
  · intro hc
    subst hc
    rw [if_neg (by norm_num), if_pos (by norm_num)]
  · intro h1 h2
    rw [if_neg (by linarith), if_neg (by linarith)]

/-- Witness for C3 at the three boundary scores. -/
theorem analyze_sentiment_vader_boundaries_witness :
    (analyze_sentiment_vader (PyText.str "good")
        (Except.ok (5 / 100))).label = "Olumlu" ∧
      (analyze_sentiment_vader (PyText.str "good")
          (Except.ok (-(5 / 100)))).label = "Olumsuz" ∧
      (analyze_sentiment_vader (PyText.str "good")
          (Except.ok 0)).label = "Nötr" :=
  ⟨(analyze_sentiment_vader_boundaries "good" (5 / 100) (by decide)).2.1 rfl,
   (analyze_sentiment_vader_boundaries "good" (-(5 / 100))
     (by decide)).2.2.1 rfl,
   (analyze_sentiment_vader_boundaries "good" 0 (by decide)).2.2.2
     (by norm_num) (by norm_num)⟩

/-- C6: when the analyzer raises on non-blank text, the fault is not
propagated: the warning channel is used and (Neutral, 0.0) is
returned. -/
theorem analyze_sentiment_vader_fault (s detail : String)
    (h : (pyStrip s).isEmpty = false) :
    analyze_sentiment_vader (PyText.str s) (Except.error detail)
      = { label := "Nötr", score := 0, analyzerInvoked := true,
          warningEmitted := true } := by
  unfold analyze_sentiment_vader
  simp only [h, Bool.false_eq_true, if_false]

/-- Witness for C6 at a concrete input. -/
theorem analyze_sentiment_vader_fault_witness :
    analyze_sentiment_vader (PyText.str "bad") (Except.error "boom")
      = { label := "Nötr", score := 0, analyzerInvoked := true,
          warningEmitted := true } :=
  analyze_sentiment_vader_fault "bad" "boom" (by decide)

/-- Blank or non-string input short-circuits the scorer. -/
theorem analyze_sentiment_vader_blank_aux (analyzer : Except String ℚ)
    (s : String) (hs : (pyStrip s).isEmpty = true) :
    analyze_sentiment_vader (PyText.str s) analyzer
      = { label := "Nötr", score := 0, analyzerInvoked := false,
          warningEmitted := false } := by
  unfold analyze_sentiment_vader
  simp [hs]

/-- C8: empty, whitespace-only, or non-string input yields (Neutral,
0.0) without invoking the analyzer, whatever the analyzer would have
done. -/
theorem analyze_sentiment_vader_guard (analyzer : Except String ℚ) :
    (∀ s : String, (pyStrip s).isEmpty = true →
        analyze_sentiment_vader (PyText.str s) analyzer
          = { label := "Nötr", score := 0, analyzerInvoked := false,
              warningEmitted := false }) ∧
      analyze_sentiment_vader PyText.nonStr analyzer
        = { label := "Nötr", score := 0, analyzerInvoked := false,
            warningEmitted := false } ∧
      analyze_sentiment_vader (PyText.str "") analyzer
        = { label := "Nötr", score := 0, analyzerInvoked := false,
            warningEmitted := false } ∧
      analyze_sentiment_vader (PyText.str "   ") analyzer
        = { label := "Nötr", score := 0, analyzerInvoked := false,
            warningEmitted := false } :=
  ⟨fun s hs => analyze_sentiment_vader_blank_aux analyzer s hs, rfl,
   analyze_sentiment_vader_blank_aux analyzer "" (by decide),
   analyze_sentiment_vader_blank_aux analyzer "   " (by decide)⟩

/-- Witness for C8 at a concrete whitespace input and analyzer. -/
theorem analyze_sentiment_vader_guard_witness :
    analyze_sentiment_vader (PyText.str " ") (Except.ok 1)
      = { label := "Nötr", score := 0, analyzerInvoked := false,
          warningEmitted := false } :=
  (analyze_sentiment_vader_guard (Except.ok 1)).1 " " (by decide)

/-- C9: format_datetime is total; absent or empty input yields the
fixed placeholder; a non-empty input whose parse fails falls back to
the part before the first T, so "not-a-date" comes back unchanged. -/
theorem format_datetime_total_fallbacks :
    (∀ parsed, format_datetime none parsed = "Tarih Yok") ∧
      (∀ parsed, format_datetime (some "") parsed = "Tarih Yok") ∧
      (∀ s : String, s.isEmpty = false →
        format_datetime (some s) none = splitT s) ∧
      splitT "not-a-date" = "not-a-date" ∧
      format_datetime (some "not-a-date") none = "not-a-date" ∧
      splitT "2024-01-15T10:30:00Z" = "2024-01-15" := by
  refine ⟨fun parsed => rfl, fun parsed => rfl, ?_, by decide, by decide,
    by decide⟩
  intro s hs
  unfold format_datetime
  simp [hs]

/-- Witness for C9 at a concrete non-empty input. -/
theorem format_datetime_total_fallbacks_witness :
    format_datetime (some "abc") none = splitT "abc" :=
  format_datetime_total_fallbacks.2.2.1 "abc" (by decide)

end NewsDash
